import Mathlib

/-! Shallow embedding of `src/dazel.py` (the dazel launcher) and verification of
the spec claims about it.

The script shells out to docker for every external effect.  We model the
outside world (filesystem queries, timestamps, the exit codes of the external
commands, and the text output of `docker ps` / `docker images`) as an explicit
`Env` record, and each Python function as a Lean function over that record.
Python exceptions are modelled with `Except PyError`.
-/

namespace Dazel

/-- A Python runtime error, as raised by the script or by the interpreter. -/
inductive PyError where
  | runtimeError (msg : String)
  | attributeError (msg : String)
  | typeError (msg : String)
deriving DecidableEq, Repr

/-- A dynamically-typed Python value, restricted to the shapes that reach the
configuration fields of the script (strings, lists of strings, integers). -/
inductive PyValue where
  | str (s : String)
  | list (l : List String)
  | int (n : Int)
deriving DecidableEq, Repr

/-- Python truthiness for the values above (`if volumes:` etc.). -/
def PyValue.truthy : PyValue → Bool
  | .str s => s ≠ ""
  | .list l => l ≠ []
  | .int n => n ≠ 0

/-- One row of `docker ps` output: the columns that matter for a `grep` are
just text; we keep the container name and image separate so we can speak
about exact-name matches. -/
structure PsRow where
  containerId : String
  image : String
  names : String
deriving DecidableEq, Repr

/-- The text line `docker ps` prints for a row (name appears last). -/
def PsRow.render (r : PsRow) : String :=
  r.containerId ++ " " ++ r.image ++ " " ++ r.names

/-- The outside world as seen by one invocation of the script: filesystem
queries, `os.path` resolution, file timestamps (`os.path.getctime`), the exit
codes returned by `os.system` for each external docker command, and the text
output of the listing commands that get piped through `grep`. -/
structure Env where
  pathExists : String → Bool
  isdir : String → Bool
  realpath : String → String
  getctime : String → Int
  buildRc : Int
  pullRc : Int
  runRc : Int
  execRc : Int
  psRows : List PsRow
  imageLines : List String

/-- Model of `grep PAT` over a list of output lines: exit code 0 (success) exactly when
some line contains the pattern as a substring. -/
def grepMatches (pat : String) (lines : List String) : Bool :=
  lines.any (fun l => decide (List.IsInfix pat.toList l.toList))

/-- Python `str.split(sep)` on character lists (left-to-right, non-overlapping
occurrences of a non-empty separator).  The fuel argument makes the recursion
structural; it starts at `length + 1`, which is always enough since every step
consumes at least one character. -/
def pySplitAux (sep : List Char) : Nat → List Char → List Char → List (List Char)
  | 0, acc, _ => [acc.reverse]
  | _ + 1, acc, [] => [acc.reverse]
  | fuel + 1, acc, c :: cs =>
    if List.isPrefixOf sep (c :: cs) then
      acc.reverse :: pySplitAux sep fuel [] (List.drop sep.length (c :: cs))
    else pySplitAux sep fuel (c :: acc) cs

/-- Python `s.split(sep)` for strings. -/
def pySplit (sep s : String) : List String :=
  (pySplitAux sep.toList (s.toList.length + 1) [] s.toList).map List.asString

/-- Python `s.strip()`: drop whitespace from both ends. -/
def pyStrip (s : String) : String :=
  (((s.toList.dropWhile Char.isWhitespace).reverse.dropWhile
    Char.isWhitespace).reverse).asString

/- Module-level constants of dazel.py. -/

def DAZEL_RC_FILE : String := ".dazelrc"

def DAZEL_RUN_FILE : String := ".dazel_run"

def DEFAULT_INSTANCE_NAME : String := "dazel"

def DEFAULT_IMAGE_NAME : String := "dazel"

def DEFAULT_LOCAL_DOCKERFILE : String := "Dockerfile.dazel"

def DEFAULT_REMOTE_RPOSITORY : String := "dazel"

def DEFAULT_COMMAND : String := "/bazel/output/bazel"

def DEFAULT_VOLUMES : PyValue := .list []

/-- Value of `"%s/.cache/bazel" % os.environ.get("HOME", "~")`. -/
def DEFAULT_BAZEL_USER_OUTPUT_ROOT (environ : String → Option String) : String :=
  ((environ "HOME").getD "~") ++ "/.cache/bazel"

/-- The `DockerInstance` object after `__init__` has run: all fields are the
strings the script works with (`volumes` is the serialized `-v` string that
`_add_volumes` stores back on `self`). -/
structure DockerInstance where
  instance_name : String
  image_name : String
  dockerfile : String
  repository : String
  directory : String
  command : String
  volumes : String
  bazel_user_output_root : String
  dazel_run_file : String
deriving DecidableEq, Repr

/-- Method `is_running`: `os.system("docker ps | grep %s >& /dev/null")` returns 0
exactly when the instance name occurs as a substring of some output line. -/
def DockerInstance.is_running (di : DockerInstance) (env : Env) : Bool :=
  grepMatches di.instance_name (env.psRows.map PsRow.render)

/-- Method `_image_exists`: `docker images | grep repository/image_name`. -/
def DockerInstance.image_exists (di : DockerInstance) (env : Env) : Bool :=
  grepMatches (di.repository ++ "/" ++ di.image_name) env.imageLines

/-- Method `_build`: raises RuntimeError when the dockerfile is missing, otherwise
returns the exit code of `docker build`. -/
def DockerInstance.build (di : DockerInstance) (env : Env) : Except PyError Int :=
  if env.pathExists di.dockerfile then .ok env.buildRc
  else .error (.runtimeError "No Dockerfile to build the dazel image from.")

/-- Method `_pull`: raises RuntimeError when the repository is falsy (empty string),
otherwise returns the exit code of `docker pull`. -/
def DockerInstance.pull (di : DockerInstance) (env : Env) : Except PyError Int :=
  if di.repository = "" then
    .error (.runtimeError "No repository to pull the dazel image from.")
  else .ok env.pullRc

/-- What one call of `start` did: which external steps ran, what (if anything)
was written to the run file, and the returned code. -/
structure StartResult where
  buildAttempted : Bool
  pullAttempted : Bool
  runAttempted : Bool
  markerWritten : Option String
  rc : Int
deriving DecidableEq, Repr

/-- Method `start`: build (dockerfile present) or pull (absent, with a failed pull
forgiven when the image already exists locally); a non-zero code returns
immediately; otherwise stop/rm/run the container (one `os.system` call whose
code is that of the final `docker run`); on success write
`instance_name + "\n"` to the run file and return 0. -/
def DockerInstance.start (di : DockerInstance) (env : Env) :
    Except PyError StartResult :=
  if env.pathExists di.dockerfile then
    match di.build env with
    | .error e => .error e
    | .ok rc =>
      if rc ≠ 0 then .ok ⟨true, false, false, none, rc⟩
      else if env.runRc ≠ 0 then .ok ⟨true, false, true, none, env.runRc⟩
      else .ok ⟨true, false, true, some (di.instance_name ++ "\n"), env.runRc⟩
  else
    match di.pull env with
    | .error e => .error e
    | .ok rc0 =>
      let rc := if rc0 ≠ 0 ∧ di.image_exists env = true then 0 else rc0
      if rc ≠ 0 then .ok ⟨false, true, false, none, rc⟩
      else if env.runRc ≠ 0 then .ok ⟨false, true, true, none, env.runRc⟩
      else .ok ⟨false, true, true, some (di.instance_name ++ "\n"), env.runRc⟩

/-- The shell line `send_command` builds (quoting each argument). -/
def DockerInstance.sendCommandString (di : DockerInstance) (args : List String) :
    String :=
  "docker exec -it " ++ di.instance_name ++ " " ++ di.command ++
    " --output_user_root=" ++ di.bazel_user_output_root ++ " " ++
    "\"" ++ String.intercalate "\" \"" args ++ "\""

/-- Method `send_command` returns the exit code of the `docker exec` call. -/
def DockerInstance.send_command (di : DockerInstance) (env : Env)
    (args : List String) : Int :=
  let _ := di.sendCommandString args
  env.execRc

/-- The staleness condition of `main` (line 188-191): provision when the run
file is missing, or the container is not running, or the dockerfile exists
and its ctime is newer than the run file's. -/
def shouldStart (di : DockerInstance) (env : Env) : Bool :=
  !env.pathExists di.dazel_run_file ||
  !di.is_running env ||
  (env.pathExists di.dockerfile &&
    decide (env.getctime di.dockerfile > env.getctime di.dazel_run_file))

/-- What one invocation of `main` did after configuration was loaded. -/
structure MainResult where
  startResult : Option StartResult
  sendAttempted : Bool
  rc : Int
deriving DecidableEq, Repr

/-- Function `main` after `from_config`: provision when stale, aborting with the
provisioning code on failure, then forward the arguments. -/
def main (di : DockerInstance) (env : Env) (args : List String) :
    Except PyError MainResult :=
  if shouldStart di env then
    match di.start env with
    | .error e => .error e
    | .ok sr =>
      if sr.rc ≠ 0 then .ok ⟨some sr, false, sr.rc⟩
      else .ok ⟨some sr, true, di.send_command env args⟩
  else .ok ⟨none, true, di.send_command env args⟩

/-! Configuration loading (`from_config`, lines 43-57). -/

/-- The tuple of keyword arguments `from_config` passes to the
`DockerInstance` constructor (before `__init__` / `_add_volumes` run). -/
structure RawConfig where
  instance_name : PyValue
  image_name : PyValue
  dockerfile : PyValue
  repository : PyValue
  directory : PyValue
  command : PyValue
  volumes : PyValue
  bazel_user_output_root : PyValue
  dazel_run_file : PyValue
deriving DecidableEq, Repr

/-- Python `dict.update`: the overlay wins wherever it has a key. -/
def dictUpdate (base overlay : String → Option PyValue) :
    String → Option PyValue :=
  fun k =>
    match overlay k with
    | some v => some v
    | none => base k

/-- Method `_config_from_environment`: the environment variables whose names start
with `DAZEL_` (environment values are always strings). -/
def config_from_environment (environ : String → Option String) :
    String → Option PyValue :=
  fun k =>
    if List.isPrefixOf "DAZEL_".toList k.toList then (environ k).map PyValue.str
    else none

/-- Python `dict.get(key, default)`. -/
def dictGet (config : String → Option PyValue) (k : String) (d : PyValue) :
    PyValue :=
  (config k).getD d

/-- Method `from_config`: the file config updated by the `DAZEL_`-prefixed
environment, each constructor argument looked up with its built-in default.
`fileConfig` is the dict produced by executing `.dazelrc`; `cwd` stands for
`os.getcwd()`. -/
def from_config (fileConfig : String → Option PyValue)
    (environ : String → Option String) (cwd : String) : RawConfig :=
  let config := dictUpdate fileConfig (config_from_environment environ)
  { instance_name := dictGet config "DAZEL_INSTANCE_NAME" (.str DEFAULT_INSTANCE_NAME)
  , image_name := dictGet config "DAZEL_IMAGE_NAME" (.str DEFAULT_IMAGE_NAME)
  , dockerfile := dictGet config "DAZEL_DOCKERFILE" (.str DEFAULT_LOCAL_DOCKERFILE)
  , repository := dictGet config "DAZEL_REPOSITORY" (.str DEFAULT_REMOTE_RPOSITORY)
  , directory := dictGet config "DAZEL_DIRECTORY" (.str cwd)
  , command := dictGet config "DAZEL_COMMAND" (.str DEFAULT_COMMAND)
  , volumes := dictGet config "DAZEL_VOLUMES" DEFAULT_VOLUMES
  , bazel_user_output_root := dictGet config "DAZEL_BAZEL_USER_OUTPUT_ROOT"
      (.str (DEFAULT_BAZEL_USER_OUTPUT_ROOT environ))
  , dazel_run_file := dictGet config "DAZEL_RUN_FILE" (.str DAZEL_RUN_FILE) }

/-! Volume resolution (`_add_volumes`, lines 128-158). -/

/-- What `_add_volumes` leaves behind: the mount list after the two implicit
mounts are appended, its serialized `-v` string, the final
`bazel_user_output_root`, and whether `os.makedirs` was invoked. -/
structure VolumesResult where
  mounts : List String
  volumesStr : String
  outputRoot : String
  makedirsCalled : Bool
deriving DecidableEq, Repr

/-- Lines 147-154: with no configured output root, locate the `/_bazel`
segment in the resolved build-output path and rebuild the per-user cache root
from the text before it plus the first path component after it. -/
def deriveOutputRoot (root0 real_bazelout : String) : String :=
  if root0 = "" ∧ List.IsInfix "/_bazel".toList real_bazelout.toList then
    let parts := pySplit "/_bazel" real_bazelout
    parts.headD "" ++ ("/_bazel" ++ (pySplit "/" (parts.getD 1 "")).headD "")
  else root0

/-- Lines 137-158 of `_add_volumes`, after the input has been normalized to a
list: append the two implicit mounts, serialize, derive the output root from
the `/_bazel` segment when none was configured, and call `makedirs` when the
result is not a directory yet. -/
def addVolumesRest (directory root0 : String) (env : Env) (vs : List String) :
    Except PyError VolumesResult :=
  let real_directory := env.realpath directory
  let real_bazelout := env.realpath (directory ++ "/bazel-out/..")
  let mounts := vs ++
    [real_directory ++ ":" ++ real_directory,
     real_bazelout ++ ":" ++ real_bazelout]
  let volumesStr := "-v \"" ++ String.intercalate "\" -v \"" mounts ++ "\""
  let root := deriveOutputRoot root0 real_bazelout
  .ok ⟨mounts, volumesStr, root, !env.isdir root⟩

/-- Method `_add_volumes` (lines 128-158).  A string is split on commas and each
piece stripped.  For any other truthy value the `elif` guard evaluates
`isinstance(volumes, types.Iterable)`, and the `types` module has no
attribute `Iterable` in any Python version, so the interpreter raises
`AttributeError` before the `raise RuntimeError` line can run; this hits
non-empty lists as well as truthy non-iterables.  A falsy non-string
non-list (`0`) slips past the guard and then fails at `volumes += [...]`
with `TypeError`; an empty list proceeds normally. -/
def add_volumes (directory root0 : String) (env : Env) (volumes : PyValue) :
    Except PyError VolumesResult :=
  match volumes with
  | .str s => addVolumesRest directory root0 env ((pySplit "," s).map pyStrip)
  | .list [] => addVolumesRest directory root0 env []
  | .list (_ :: _) =>
    .error (.attributeError "module types has no attribute Iterable")
  | .int n =>
    if n = 0 then
      .error (.typeError "unsupported operand types for += (int and list)")
    else .error (.attributeError "module types has no attribute Iterable")

/-! Concrete fixtures used by the witnesses. -/

/-- A `DockerInstance` with all the built-in defaults. -/
def diW : DockerInstance :=
  { instance_name := "dazel", image_name := "dazel"
  , dockerfile := "Dockerfile.dazel", repository := "dazel"
  , directory := "/work", command := "/bazel/output/bazel"
  , volumes := "", bazel_user_output_root := "/root/.cache/bazel"
  , dazel_run_file := ".dazel_run" }

/-- World where the run file is missing, the dockerfile exists, and every
external command succeeds; the forwarded command exits with 7. -/
def envMarkerMissing : Env :=
  { pathExists := fun p => p != ".dazel_run"
  , isdir := fun _ => true
  , realpath := fun p => p
  , getctime := fun _ => 0
  , buildRc := 0, pullRc := 0, runRc := 0, execRc := 7
  , psRows := [], imageLines := [] }

/-- World where everything exists, the container is running, and the run file
is newer than the dockerfile. -/
def envFresh : Env :=
  { pathExists := fun _ => true
  , isdir := fun _ => true
  , realpath := fun p => p
  , getctime := fun p => if p == ".dazel_run" then 1 else 0
  , buildRc := 0, pullRc := 0, runRc := 0, execRc := 7
  , psRows := [⟨"c0ffee", "dazel/dazel", "dazel"⟩]
  , imageLines := ["dazel/dazel latest abc123"] }

/-- Like `envMarkerMissing` but the build fails with exit code 3. -/
def envBuildFail : Env :=
  { pathExists := fun p => p != ".dazel_run"
  , isdir := fun _ => true
  , realpath := fun p => p
  , getctime := fun _ => 0
  , buildRc := 3, pullRc := 0, runRc := 0, execRc := 7
  , psRows := [], imageLines := [] }

/-! The claims. -/

/-- C1: the staleness decision in `main` follows the four cases: run file
absent → provision; run file present but container not running → provision;
run file present, container running, dockerfile older than the run file →
skip; dockerfile newer than the run file → provision.  (And when the
decision is to skip, `main` goes straight to forwarding the command.) -/
theorem dazel_C1_staleness :
    ∀ (di : DockerInstance) (env : Env) (args : List String),
      (env.pathExists di.dazel_run_file = false → shouldStart di env = true) ∧
      (di.is_running env = false → shouldStart di env = true) ∧
      (env.pathExists di.dazel_run_file = true → di.is_running env = true →
        env.getctime di.dockerfile < env.getctime di.dazel_run_file →
        shouldStart di env = false) ∧
      (env.pathExists di.dockerfile = true →
        env.getctime di.dockerfile > env.getctime di.dazel_run_file →
        shouldStart di env = true) ∧
      (shouldStart di env = false →
        main di env args = Except.ok ⟨none, true, di.send_command env args⟩) := by
  intro di env args
  refine ⟨?_, ?_, ?_, ?_, ?_⟩
  · intro h; simp [shouldStart, h]
  · intro h; simp [shouldStart, h]
  · intro h1 h2 h3
    have hd : decide (env.getctime di.dockerfile >
        env.getctime di.dazel_run_file) = false := by
      rw [decide_eq_false_iff_not]; omega
    simp [shouldStart, h1, h2, hd]
  · intro h1 h2
    have hd : decide (env.getctime di.dockerfile >
        env.getctime di.dazel_run_file) = true := by
      rw [decide_eq_true_eq]; exact h2
    simp [shouldStart, h1, hd]
  · intro h; simp [main, h]

/-- Witness for C1: with the run file missing the decision is to provision;
in the fresh world it is to skip, and `main` only forwards the command. -/
theorem dazel_C1_staleness_witness :
    shouldStart diW envMarkerMissing = true ∧
    shouldStart diW envFresh = false ∧
    main diW envFresh [] = Except.ok ⟨none, true, 7⟩ := by
  refine ⟨(dazel_C1_staleness diW envMarkerMissing []).1 (by decide), ?_, ?_⟩
  · exact (dazel_C1_staleness diW envFresh []).2.2.1 rfl (by decide) (by decide)
  · have hs : shouldStart diW envFresh = false :=
      (dazel_C1_staleness diW envFresh []).2.2.1 rfl (by decide) (by decide)
    exact (dazel_C1_staleness diW envFresh []).2.2.2.2 hs

/-- C3: `start` builds when the dockerfile exists (and a non-zero build code
aborts before the run step), pulls when it does not, and a failed pull is
forgiven when the image already exists locally (the run step still runs). -/
theorem dazel_C3_build_or_pull :
    ∀ (di : DockerInstance) (env : Env),
      (env.pathExists di.dockerfile = true →
        ∃ sr, di.start env = Except.ok sr ∧ sr.buildAttempted = true ∧
          sr.pullAttempted = false ∧
          (env.buildRc ≠ 0 →
            sr.rc = env.buildRc ∧ sr.runAttempted = false ∧
            sr.markerWritten = none)) ∧
      (env.pathExists di.dockerfile = false → di.repository ≠ "" →
        ∃ sr, di.start env = Except.ok sr ∧ sr.buildAttempted = false ∧
          sr.pullAttempted = true ∧
          (env.pullRc ≠ 0 → di.image_exists env = true →
            sr.runAttempted = true)) := by
  intro di env
  constructor
  · intro h
    by_cases hb : env.buildRc = 0
    · by_cases hr : env.runRc = 0
      · exact ⟨⟨true, false, true, some (di.instance_name ++ "\n"), env.runRc⟩,
          by simp [DockerInstance.start, DockerInstance.build, h, hb, hr],
          rfl, rfl, fun hc => absurd hb hc⟩
      · exact ⟨⟨true, false, true, none, env.runRc⟩,
          by simp [DockerInstance.start, DockerInstance.build, h, hb, hr],
          rfl, rfl, fun hc => absurd hb hc⟩
    · exact ⟨⟨true, false, false, none, env.buildRc⟩,
        by simp [DockerInstance.start, DockerInstance.build, h, hb],
        rfl, rfl, fun _ => ⟨rfl, rfl, rfl⟩⟩
  · intro h hrep
    by_cases hp : env.pullRc = 0
    · by_cases hr : env.runRc = 0
      · exact ⟨⟨false, true, true, some (di.instance_name ++ "\n"), env.runRc⟩,
          by simp [DockerInstance.start, DockerInstance.pull, h, hrep, hp, hr],
          rfl, rfl, fun hc _ => absurd hp hc⟩
      · exact ⟨⟨false, true, true, none, env.runRc⟩,
          by simp [DockerInstance.start, DockerInstance.pull, h, hrep, hp, hr],
          rfl, rfl, fun hc _ => absurd hp hc⟩
    · by_cases hi : di.image_exists env = true
      · by_cases hr : env.runRc = 0
        · exact ⟨⟨false, true, true, some (di.instance_name ++ "\n"), env.runRc⟩,
            by simp [DockerInstance.start, DockerInstance.pull, h, hrep, hp, hi, hr],
            rfl, rfl, fun _ _ => rfl⟩
        · exact ⟨⟨false, true, true, none, env.runRc⟩,
            by simp [DockerInstance.start, DockerInstance.pull, h, hrep, hp, hi, hr],
            rfl, rfl, fun _ _ => rfl⟩
      · exact ⟨⟨false, true, false, none, env.pullRc⟩,
          by simp [DockerInstance.start, DockerInstance.pull, h, hrep, hp, hi],
          rfl, rfl, fun _ hi2 => absurd hi2 hi⟩

/-- Witness for C3: a failing build (exit 3) is attempted and aborts `start`
before the run step. -/
theorem dazel_C3_build_or_pull_witness :
    ∃ sr, diW.start envBuildFail = Except.ok sr ∧ sr.buildAttempted = true ∧
      sr.pullAttempted = false ∧ sr.rc = 3 ∧ sr.runAttempted = false := by
  obtain ⟨sr, h1, h2, h3, h4⟩ :=
    (dazel_C3_build_or_pull diW envBuildFail).1 (by decide)
  obtain ⟨h5, h6, _⟩ := h4 (by decide)
  exact ⟨sr, h1, h2, h3, h5, h6⟩

/-- C4: when provisioning is triggered and the build step fails, `main`
returns the build's exit code, and neither the container run step nor the
command-forwarding step is executed. -/
theorem dazel_C4_build_failure_propagates :
    ∀ (di : DockerInstance) (env : Env) (args : List String),
      shouldStart di env = true →
      env.pathExists di.dockerfile = true →
      env.buildRc ≠ 0 →
      main di env args =
        Except.ok ⟨some ⟨true, false, false, none, env.buildRc⟩, false,
          env.buildRc⟩ := by
  intro di env args hs hd hb
  simp [main, hs, DockerInstance.start, DockerInstance.build, hd, hb]

/-- Witness for C4: build exit code 3 becomes the program result, with no run
step and no forwarded command. -/
theorem dazel_C4_build_failure_propagates_witness :
    main diW envBuildFail [] =
      Except.ok ⟨some ⟨true, false, false, none, 3⟩, false, 3⟩ :=
  dazel_C4_build_failure_propagates diW envBuildFail [] (by decide) (by decide)
    (by decide)

/-- C5: no run file, dockerfile present, build and run succeed: the run file
is written with exactly `instance_name ++ "\n"` and the process result is the
forwarded command's exit code. -/
theorem dazel_C5_success_writes_marker :
    ∀ (di : DockerInstance) (env : Env) (args : List String),
      env.pathExists di.dazel_run_file = false →
      env.pathExists di.dockerfile = true →
      env.buildRc = 0 →
      env.runRc = 0 →
      main di env args =
        Except.ok ⟨some ⟨true, false, true, some (di.instance_name ++ "\n"), 0⟩,
          true, env.execRc⟩ := by
  intro di env args h1 h2 hb hr
  have hs : shouldStart di env = true := by simp [shouldStart, h1]
  simp [main, hs, DockerInstance.start, DockerInstance.build, h2, hb, hr,
    DockerInstance.send_command]

/-- Witness for C5: in the marker-missing world the run file gets the content
`"dazel\n"` and the program result is the forwarded command's exit code 7. -/
theorem dazel_C5_success_writes_marker_witness :
    main diW envMarkerMissing [] =
      Except.ok ⟨some ⟨true, false, true, some "dazel\n", 0⟩, true, 7⟩ :=
  dazel_C5_success_writes_marker diW envMarkerMissing [] (by decide) (by decide)
    (by decide) (by decide)

/-- C10: the missing-dockerfile error branch of `_build` is unreachable from
`start`: under the guard `start` checks before calling `_build`, `_build`
returns the build exit code, and `start` itself never raises. -/
theorem dazel_C10_build_error_unreachable :
    ∀ (di : DockerInstance) (env : Env),
      env.pathExists di.dockerfile = true →
      di.build env = Except.ok env.buildRc ∧
      ∃ sr, di.start env = Except.ok sr := by
  intro di env h
  refine ⟨by simp [DockerInstance.build, h], ?_⟩
  by_cases hb : env.buildRc = 0
  · by_cases hr : env.runRc = 0
    · exact ⟨⟨true, false, true, some (di.instance_name ++ "\n"), env.runRc⟩,
        by simp [DockerInstance.start, DockerInstance.build, h, hb, hr]⟩
    · exact ⟨⟨true, false, true, none, env.runRc⟩,
        by simp [DockerInstance.start, DockerInstance.build, h, hb, hr]⟩
  · exact ⟨⟨true, false, false, none, env.buildRc⟩,
      by simp [DockerInstance.start, DockerInstance.build, h, hb]⟩

/-- Witness for C10: with the dockerfile present, `_build` returns the build
code and `start` raises nothing. -/
theorem dazel_C10_build_error_unreachable_witness :
    diW.build envMarkerMissing = Except.ok 0 ∧
    ∃ sr, diW.start envMarkerMissing = Except.ok sr :=
  dazel_C10_build_error_unreachable diW envMarkerMissing (by decide)

/-- C2: for every configuration key, a `DAZEL_`-prefixed environment variable
overrides the config-file value, which overrides the built-in default; and
`from_config` builds each constructor argument through exactly that lookup. -/
theorem dazel_C2_precedence :
    ∀ (fileConfig : String → Option PyValue) (environ : String → Option String)
      (cwd : String),
      (from_config fileConfig environ cwd =
        { instance_name := dictGet (dictUpdate fileConfig
            (config_from_environment environ)) "DAZEL_INSTANCE_NAME"
            (.str DEFAULT_INSTANCE_NAME)
        , image_name := dictGet (dictUpdate fileConfig
            (config_from_environment environ)) "DAZEL_IMAGE_NAME"
            (.str DEFAULT_IMAGE_NAME)
        , dockerfile := dictGet (dictUpdate fileConfig
            (config_from_environment environ)) "DAZEL_DOCKERFILE"
            (.str DEFAULT_LOCAL_DOCKERFILE)
        , repository := dictGet (dictUpdate fileConfig
            (config_from_environment environ)) "DAZEL_REPOSITORY"
            (.str DEFAULT_REMOTE_RPOSITORY)
        , directory := dictGet (dictUpdate fileConfig
            (config_from_environment environ)) "DAZEL_DIRECTORY" (.str cwd)
        , command := dictGet (dictUpdate fileConfig
            (config_from_environment environ)) "DAZEL_COMMAND"
            (.str DEFAULT_COMMAND)
        , volumes := dictGet (dictUpdate fileConfig
            (config_from_environment environ)) "DAZEL_VOLUMES" DEFAULT_VOLUMES
        , bazel_user_output_root := dictGet (dictUpdate fileConfig
            (config_from_environment environ)) "DAZEL_BAZEL_USER_OUTPUT_ROOT"
            (.str (DEFAULT_BAZEL_USER_OUTPUT_ROOT environ))
        , dazel_run_file := dictGet (dictUpdate fileConfig
            (config_from_environment environ)) "DAZEL_RUN_FILE"
            (.str DAZEL_RUN_FILE) }) ∧
      (∀ (k : String) (d : PyValue),
        List.isPrefixOf "DAZEL_".toList k.toList = true →
        ((∀ v, environ k = some v →
            dictGet (dictUpdate fileConfig (config_from_environment environ))
              k d = .str v) ∧
         (environ k = none → ∀ w, fileConfig k = some w →
            dictGet (dictUpdate fileConfig (config_from_environment environ))
              k d = w) ∧
         (environ k = none → fileConfig k = none →
            dictGet (dictUpdate fileConfig (config_from_environment environ))
              k d = d))) := by
  intro f e cwd
  refine ⟨rfl, ?_⟩
  intro k d hk
  rw [ List.isPrefixOf_iff_prefix] at hk
  have hk2 : ['D', 'A', 'Z', 'E', 'L', '_'] <+: k.data := hk
  refine ⟨?_, ?_, ?_⟩
  · intro v hv
    simp [dictGet, dictUpdate, config_from_environment, hk2, hv]
  · intro he w hw
    simp [dictGet, dictUpdate, config_from_environment, hk2, he, hw]
  · intro he hf
    simp [dictGet, dictUpdate, config_from_environment, hk2, he, hf]

/-- A config file setting only the image name. -/
def fileConfigW : String → Option PyValue :=
  fun k => if k == "DAZEL_IMAGE_NAME" then some (.str "filimg") else none

/-- An environment setting only the instance name. -/
def environW : String → Option String :=
  fun k => if k == "DAZEL_INSTANCE_NAME" then some "envinst" else none

/-- Witness for C2: the environment wins for the instance name, the file wins
for the image name, the default wins for the command. -/
theorem dazel_C2_precedence_witness :
    dictGet (dictUpdate fileConfigW (config_from_environment environW))
      "DAZEL_INSTANCE_NAME" (.str DEFAULT_INSTANCE_NAME) = .str "envinst" ∧
    dictGet (dictUpdate fileConfigW (config_from_environment environW))
      "DAZEL_IMAGE_NAME" (.str DEFAULT_IMAGE_NAME) = .str "filimg" ∧
    dictGet (dictUpdate fileConfigW (config_from_environment environW))
      "DAZEL_COMMAND" (.str DEFAULT_COMMAND) = .str DEFAULT_COMMAND := by
  have h := dazel_C2_precedence fileConfigW environW "/cwd"
  refine ⟨?_, ?_, ?_⟩
  · exact (h.2 "DAZEL_INSTANCE_NAME" (.str DEFAULT_INSTANCE_NAME)
      (by decide)).1 "envinst" (by decide)
  · exact ((h.2 "DAZEL_IMAGE_NAME" (.str DEFAULT_IMAGE_NAME)
      (by decide)).2.1 (by decide) (.str "filimg") (by decide))
  · exact ((h.2 "DAZEL_COMMAND" (.str DEFAULT_COMMAND)
      (by decide)).2.2 (by decide) (by decide))

/-- C6: for the comma-separated volumes string `"a:b, c:d"`, the resolved
mount list is exactly `a:b` and `c:d` (whitespace-trimmed) followed by the
two implicit mounts (working directory to itself, build-output parent to
itself). -/
theorem dazel_C6_volumes_string :
    ∀ (directory root0 : String) (env : Env),
      Except.map VolumesResult.mounts
          (add_volumes directory root0 env (.str "a:b, c:d")) =
        Except.ok ["a:b", "c:d",
          env.realpath directory ++ ":" ++ env.realpath directory,
          env.realpath (directory ++ "/bazel-out/..") ++ ":" ++
            env.realpath (directory ++ "/bazel-out/..")] := by
  intro d r env
  have hsplit : (pySplit "," "a:b, c:d").map pyStrip = ["a:b", "c:d"] := by
    decide
  simp [add_volumes, addVolumesRest, hsplit, Except.map]

/-- C7 (the code's actual behavior at the claim's failing input): for a
non-zero integer volumes value the resolver raises `AttributeError` (because
`types.Iterable` does not exist), not the `RuntimeError` the script's own
`raise` statement intends. -/
theorem dazel_C7_nonzero_int_attribute_error :
    ∀ (directory root0 : String) (env : Env),
      add_volumes directory root0 env (.int 1) =
        Except.error (.attributeError
          "module types has no attribute Iterable") := by
  intro d r env
  rfl

/-- C8 (the code's actual behavior at the claim's scenario): when the output
root is configured nowhere, `from_config` supplies the non-empty HOME default
(lines 18 and 55), so the `not self.bazel_user_output_root` guard at line 150
is false and the `/_bazel` derivation of lines 151-154 never runs — the
resolver keeps the default even when `/_bazel` occurs in the resolved
build-output path, and only invokes `makedirs` on it when it is not yet a
directory.  This contradicts the claim and the script's own comment at lines
147-149 ("If the user hasn't explicitly set a DAZEL_BAZEL_USER_OUTPUT_ROOT
for bazel, set it from the output directory"). -/
theorem dazel_C8_unconfigured_root_keeps_default :
    ∀ (fileConfig : String → Option PyValue) (environ : String → Option String)
      (cwd directory s : String) (env : Env),
      environ "DAZEL_BAZEL_USER_OUTPUT_ROOT" = none →
      fileConfig "DAZEL_BAZEL_USER_OUTPUT_ROOT" = none →
      (from_config fileConfig environ cwd).bazel_user_output_root =
        .str (DEFAULT_BAZEL_USER_OUTPUT_ROOT environ) ∧
      DEFAULT_BAZEL_USER_OUTPUT_ROOT environ ≠ "" ∧
      deriveOutputRoot (DEFAULT_BAZEL_USER_OUTPUT_ROOT environ)
          (env.realpath (directory ++ "/bazel-out/..")) =
        DEFAULT_BAZEL_USER_OUTPUT_ROOT environ ∧
      (∃ r, add_volumes directory (DEFAULT_BAZEL_USER_OUTPUT_ROOT environ) env
          (.str s) = Except.ok r ∧
        r.outputRoot = DEFAULT_BAZEL_USER_OUTPUT_ROOT environ ∧
        (r.makedirsCalled = true ↔ env.isdir r.outputRoot = false)) := by
  intro f e cwd d s env henv hfile
  have hne : DEFAULT_BAZEL_USER_OUTPUT_ROOT e ≠ "" := by
    intro h
    have hl : (DEFAULT_BAZEL_USER_OUTPUT_ROOT e).length = 0 := by
      rw [h]; rfl
    simp only [DEFAULT_BAZEL_USER_OUTPUT_ROOT, String.length_append] at hl
    have h13 : ("/.cache/bazel" : String).length = 13 := rfl
    rw [h13] at hl
    omega
  have hder : deriveOutputRoot (DEFAULT_BAZEL_USER_OUTPUT_ROOT e)
      (env.realpath (d ++ "/bazel-out/..")) =
      DEFAULT_BAZEL_USER_OUTPUT_ROOT e := by
    simp only [deriveOutputRoot]
    rw [if_neg]
    intro hc
    exact hne hc.1
  refine ⟨?_, hne, hder, ?_⟩
  · simp [from_config, dictGet, dictUpdate, config_from_environment, henv, hfile]
  · refine ⟨_, rfl, hder, ?_⟩
    simp [addVolumesRest]

/-- World whose resolved build-output path sits inside a bazel cache
namespace and where no directory exists yet. -/
def envBazelOut : Env :=
  { pathExists := fun _ => true
  , isdir := fun _ => false
  , realpath := fun _ => "/home/u/.cache/bazel/_bazel_user/1a2b/execroot/proj"
  , getctime := fun _ => 0
  , buildRc := 0, pullRc := 0, runRc := 0, execRc := 0
  , psRows := [], imageLines := [] }

/-- Environment where only `HOME` is set. -/
def environHome : String → Option String :=
  fun k => if k == "HOME" then some "/home/u" else none

/-- Witness for C8: with the root unconfigured anywhere, `from_config` yields
`/home/u/.cache/bazel`, and even though the resolved build-output path
contains `/_bazel`, the resolver keeps that default and calls `makedirs`. -/
theorem dazel_C8_unconfigured_root_keeps_default_witness :
    (from_config (fun _ => none) environHome "/cwd").bazel_user_output_root =
      .str "/home/u/.cache/bazel" ∧
    List.IsInfix "/_bazel".toList
      (envBazelOut.realpath ("/work" ++ "/bazel-out/..")).toList ∧
    ∃ r, add_volumes "/work" "/home/u/.cache/bazel" envBazelOut (.str "") =
        Except.ok r ∧
      r.outputRoot = "/home/u/.cache/bazel" ∧ r.makedirsCalled = true := by
  have h := dazel_C8_unconfigured_root_keeps_default (fun _ => none) environHome
    "/cwd" "/work" "" envBazelOut (by decide) rfl
  obtain ⟨h1, _, _, r, h4, h5, h6⟩ := h
  exact ⟨h1, by decide, r, h4, h5, h6.mpr rfl⟩

/-- World where the only running container is named `dazel2` (its line still
contains `dazel` as a substring), everything exists, and the timestamps are
equal. -/
def envLookalike : Env :=
  { pathExists := fun _ => true
  , isdir := fun _ => true
  , realpath := fun p => p
  , getctime := fun _ => 0
  , buildRc := 0, pullRc := 0, runRc := 0, execRc := 0
  , psRows := [⟨"c0ffee", "ubuntu", "dazel2"⟩]
  , imageLines := [] }

/-- C9: `is_running` is exactly "the instance name occurs as a substring of
some line of the `docker ps` output"; in particular there is a world where no
container is named exactly `dazel` yet `is_running` is true, and the
staleness decision then skips provisioning. -/
theorem dazel_C9_substring_is_running :
    (∀ (di : DockerInstance) (env : Env),
      di.is_running env = true ↔
        ∃ r ∈ env.psRows,
          List.IsInfix di.instance_name.toList (PsRow.render r).toList) ∧
    (∃ (di : DockerInstance) (env : Env),
      (∀ r ∈ env.psRows, r.names ≠ di.instance_name) ∧
      di.is_running env = true ∧
      shouldStart di env = false) := by
  constructor
  · intro di env
    simp [DockerInstance.is_running, grepMatches]
  · exact ⟨diW, envLookalike, by decide, by decide, by decide⟩

/-- Witness for C9: the closed lookalike world produced by the theorem. -/
theorem dazel_C9_substring_is_running_witness :
    ∃ (di : DockerInstance) (env : Env),
      (∀ r ∈ env.psRows, r.names ≠ di.instance_name) ∧
      di.is_running env = true ∧
      shouldStart di env = false :=
  dazel_C9_substring_is_running.2

end Dazel
